import Mathlib

/-!
Shallow embedding of the ResumeMatch AI agent (src/app.py): the document
text-extraction layer (`extract_text_from_file`, lines 13-47), the
response-parsing step of the evaluation orchestrator (`analyze_resume`,
lines 86-90), and the caller's error classification (`main`, lines 140-143).
External collaborators (the Streamlit widget layer, PyPDF2, python-docx,
Python's stdlib UTF-8 decoder and `json` module, the OpenAI client) are not
repository code; where the embedding needs their behaviour it models them
from the spec, as noted on each definition.
-/

set_option maxRecDepth 8192

namespace ResumeMatch

/-- A diagnostic surfaced to the caller through the display layer:
`st.error` or `st.warning` in src/app.py. Non-fatal: emitting one does not
interrupt the function that emits it. -/
inductive Diagnostic where
  | error (msg : String) : Diagnostic
  | warning (msg : String) : Diagnostic
deriving DecidableEq, Repr, BEq

/-- The uploaded document as `extract_text_from_file` consumes it.
`type` is the declared media type (`uploaded_file.type`); `bytes` is the raw
payload (`uploaded_file.read()`), one `Nat` per byte. The two parsing
libraries are external to the repository, so their behaviour on this
payload is modelled from the spec as data carried with the document, and
both calls can fail: `PdfReader(uploaded_file)` raises (e.g.
`PdfReadError`) on a malformed PDF payload and `docx.Document` raises
(e.g. `PackageNotFoundError`) on a payload that is not a well-formed
word-processing container — only the imports are guarded in the source.
`pdfPages = none` models `PdfReader` raising on this payload; otherwise it
is the per-page result of `page.extract_text()` (`none` for a page that
yields no extractable text). `docxParas = none` models `docx.Document`
raising; otherwise it is the paragraph text sequence in document order. -/
structure UploadedFile where
  type : String
  bytes : List Nat
  pdfPages : Option (List (Option String))
  docxParas : Option (List String)
deriving DecidableEq, Repr

/-- Runtime availability of the two optional parsing capabilities: whether
`from PyPDF2 import PdfReader` and `import docx` succeed (src/app.py lines
25-28 and 38-41). -/
structure Env where
  pypdf2Available : Bool
  docxAvailable : Bool
deriving DecidableEq, Repr

/-- Continuation byte test for UTF-8: `0x80 ≤ b < 0xC0`. -/
def isCont (b : Nat) : Bool := 0x80 ≤ b && b < 0xC0

/-- Modelled from the spec: one pass of Python's
`bytes.decode("utf-8", errors="ignore")` (the stdlib decoder is not
repository code). Strict UTF-8: overlong encodings, surrogates, lead bytes
`0xC0`/`0xC1`/`0xF5`-`0xFF` and stray continuation bytes are invalid; the
`ignore` handler drops the maximal invalid subpart and resumes, so decoding
is total and never fails. `fuel` bounds recursion; every step consumes at
least one byte, so `fuel = length` suffices. -/
def utf8IgnoreAux : Nat → List Nat → List Char
  | 0, _ => []
  | _, [] => []
  | fuel + 1, b :: rest =>
    if b < 0x80 then Char.ofNat b :: utf8IgnoreAux fuel rest
    else if b < 0xC2 then utf8IgnoreAux fuel rest
    else if b < 0xE0 then
      match rest with
      | [] => []
      | c1 :: rest2 =>
        if isCont c1 then
          Char.ofNat ((b - 0xC0) * 0x40 + (c1 - 0x80)) :: utf8IgnoreAux fuel rest2
        else utf8IgnoreAux fuel (c1 :: rest2)
    else if b < 0xF0 then
      match rest with
      | [] => []
      | c1 :: rest2 =>
        if (if b = 0xE0 then 0xA0 ≤ c1 && c1 < 0xC0
            else if b = 0xED then 0x80 ≤ c1 && c1 < 0xA0
            else isCont c1) then
          match rest2 with
          | [] => []
          | c2 :: rest3 =>
            if isCont c2 then
              Char.ofNat ((b - 0xE0) * 0x1000 + (c1 - 0x80) * 0x40 + (c2 - 0x80)) ::
                utf8IgnoreAux fuel rest3
            else utf8IgnoreAux fuel (c2 :: rest3)
        else utf8IgnoreAux fuel (c1 :: rest2)
    else if b < 0xF5 then
      match rest with
      | [] => []
      | c1 :: rest2 =>
        if (if b = 0xF0 then 0x90 ≤ c1 && c1 < 0xC0
            else if b = 0xF4 then 0x80 ≤ c1 && c1 < 0x90
            else isCont c1) then
          match rest2 with
          | [] => []
          | c2 :: rest3 =>
            if isCont c2 then
              match rest3 with
              | [] => []
              | c3 :: rest4 =>
                if isCont c3 then
                  Char.ofNat ((b - 0xF0) * 0x40000 + (c1 - 0x80) * 0x1000 +
                      (c2 - 0x80) * 0x40 + (c3 - 0x80)) :: utf8IgnoreAux fuel rest4
                else utf8IgnoreAux fuel (c3 :: rest4)
            else utf8IgnoreAux fuel (c2 :: rest3)
        else utf8IgnoreAux fuel (c1 :: rest2)
    else utf8IgnoreAux fuel rest

/-- `uploaded_file.read().decode("utf-8", errors="ignore")`: total lossy
decoding of the byte payload. -/
def utf8DecodeIgnore (bs : List Nat) : String := ⟨utf8IgnoreAux bs.length bs⟩

/-- The word-processing MIME type matched at src/app.py line 37. -/
def docxMime : String :=
  "application/vnd.openxmlformats-officedocument.wordprocessingml.document"

/-- Embedding of `extract_text_from_file` (src/app.py lines 13-47).
`Except.ok` carries the extracted text together with the list of
diagnostics the call pushed to the display layer (`st.error` /
`st.warning`), in order of emission; `Except.error` models a Python
exception escaping the function uncaught, carrying the exception class
name. Branches follow the source exactly: absent file, then `text/plain`
(lossy UTF-8 decode, which cannot fail), `application/pdf` (the
`PdfReader` call at line 30, outside the try/except that guards only the
import, then a fold of `page.extract_text() or ""` over the pages), the
word-processing MIME type (the `docx.Document` call at line 43, likewise
unguarded, then paragraph texts joined by a newline), and the fall-through
warning for anything else; the two capability checks yield an `st.error`
diagnostic and empty text when the import is unavailable. -/
def extract_text_from_file (env : Env) (uploaded_file : Option UploadedFile) :
    Except String (String × List Diagnostic) :=
  match uploaded_file with
  | none => Except.ok ("", [])
  | some f =>
    if f.type = "text/plain" then
      Except.ok (utf8DecodeIgnore f.bytes, [])
    else if f.type = "application/pdf" then
      if env.pypdf2Available then
        match f.pdfPages with
        | some pages =>
          Except.ok (pages.foldl (fun text p => text ++ p.getD "") "", [])
        | none => Except.error "PdfReadError"
      else
        Except.ok ("", [Diagnostic.error "PyPDF2 missing. Add to requirements.txt"])
    else if f.type = docxMime then
      if env.docxAvailable then
        match f.docxParas with
        | some paras => Except.ok (String.intercalate "\n" paras, [])
        | none => Except.error "PackageNotFoundError"
      else
        Except.ok ("", [Diagnostic.error "python-docx missing. Add to requirements.txt"])
    else Except.ok ("", [Diagnostic.warning "Unsupported file type"])

/-- JSON values as Python's `json.loads` produces them, restricted to what
the service contract can return: `num` holds integer literals only
(fractional and exponent literals are not modelled — no claim touches
them), and object members are kept as an ordered association list
(duplicate keys are not collapsed). -/
inductive Json where
  | null : Json
  | bool (b : Bool) : Json
  | num (n : Int) : Json
  | str (s : String) : Json
  | arr (elems : List Json) : Json
  | obj (members : List (String × Json)) : Json
deriving Repr

/-- JSON insignificant whitespace, as accepted between tokens. -/
def isJsonWs (c : Char) : Bool := c = ' ' || c = '\t' || c = '\n' || c = '\r'

/-- Skip insignificant whitespace. -/
def skipWs (cs : List Char) : List Char := cs.dropWhile isJsonWs

/-- Value of a hexadecimal digit, if the character is one (codes 48-57 are
the digits, 97-102 lowercase a-f, 65-70 uppercase A-F). -/
def hexVal (c : Char) : Option Nat :=
  let n := c.toNat
  if 48 ≤ n && n ≤ 57 then some (n - 48)
  else if 97 ≤ n && n ≤ 102 then some (n - 87)
  else if 65 ≤ n && n ≤ 70 then some (n - 55)
  else none

/-- The character denoted by a single-character JSON escape `\c`. -/
def escChar (c : Char) : Option Char :=
  if c = '"' then some '"'
  else if c = '\\' then some '\\'
  else if c = '/' then some '/'
  else if c = 'b' then some (Char.ofNat 8)
  else if c = 'f' then some (Char.ofNat 12)
  else if c = 'n' then some '\n'
  else if c = 'r' then some '\r'
  else if c = 't' then some '\t'
  else none

/-- Body of a JSON string literal, after the opening quote: the decoded
characters and the remaining input after the closing quote. Unescaped
control characters are rejected, as in strict `json.loads`. A `\uXXXX`
escape in the surrogate range decodes to U+FFFD (lone surrogates cannot be
represented; no claim exercises them). -/
def parseStringBody : List Char → Option (List Char × List Char)
  | [] => none
  | '"' :: rest => some ([], rest)
  | '\\' :: 'u' :: h1 :: h2 :: h3 :: h4 :: rest => do
    let a ← hexVal h1
    let b ← hexVal h2
    let c ← hexVal h3
    let d ← hexVal h4
    let n := (a <<< 12) + (b <<< 8) + (c <<< 4) + d
    let ch := if 0xD800 ≤ n && n < 0xE000 then Char.ofNat 0xFFFD else Char.ofNat n
    let (cs, rem) ← parseStringBody rest
    pure (ch :: cs, rem)
  | '\\' :: e :: rest => do
    let ch ← escChar e
    let (cs, rem) ← parseStringBody rest
    pure (ch :: cs, rem)
  | c :: rest =>
    if c.toNat < 0x20 then none
    else do
      let (cs, rem) ← parseStringBody rest
      pure (c :: cs, rem)

/-- Decimal digit test. -/
def isDigitCh (c : Char) : Bool := '0' ≤ c && c ≤ '9'

/-- Accumulate a digit string into a natural number. -/
def digitsToNat : List Char → Nat → Nat
  | [], acc => acc
  | c :: rest, acc => digitsToNat rest (acc * 10 + (c.toNat - '0'.toNat))

/-- A JSON integer literal: optional minus sign followed by digits.
Leading-zero rejection and fraction/exponent parts are not modelled. -/
def parseIntLit (cs : List Char) : Option (Int × List Char) :=
  match cs with
  | '-' :: rest =>
    let ds := rest.takeWhile isDigitCh
    if ds.isEmpty then none
    else some (-(digitsToNat ds 0 : Int), rest.drop ds.length)
  | _ =>
    let ds := cs.takeWhile isDigitCh
    if ds.isEmpty then none
    else some ((digitsToNat ds 0 : Int), cs.drop ds.length)

mutual
/-- Modelled from the spec: the recursive-descent core of Python's
`json.loads` (the stdlib `json` module is not repository code). Parses one
JSON value, returning it with the unconsumed remainder. `fuel` bounds the
mutual recursion; every nested call consumes input, so `length + 1`
suffices at top level. -/
def parseValue : Nat → List Char → Option (Json × List Char)
  | 0, _ => none
  | fuel + 1, cs =>
    match skipWs cs with
    | [] => none
    | c :: rest =>
      if c = '{' then
        match skipWs rest with
        | '}' :: rest2 => some (Json.obj [], rest2)
        | _ => do
          let (ms, rem) ← parseMembers fuel rest
          pure (Json.obj ms, rem)
      else if c = '[' then
        match skipWs rest with
        | ']' :: rest2 => some (Json.arr [], rest2)
        | _ => do
          let (xs, rem) ← parseElements fuel rest
          pure (Json.arr xs, rem)
      else if c = '"' then do
        let (scs, rem) ← parseStringBody rest
        pure (Json.str ⟨scs⟩, rem)
      else if c = 't' then
        match rest with
        | 'r' :: 'u' :: 'e' :: rest2 => some (Json.bool true, rest2)
        | _ => none
      else if c = 'f' then
        match rest with
        | 'a' :: 'l' :: 's' :: 'e' :: rest2 => some (Json.bool false, rest2)
        | _ => none
      else if c = 'n' then
        match rest with
        | 'u' :: 'l' :: 'l' :: rest2 => some (Json.null, rest2)
        | _ => none
      else
        match parseIntLit (c :: rest) with
        | some (n, rem) => some (Json.num n, rem)
        | none => none

/-- Nonempty member list of a JSON object, up to and including the closing
brace. -/
def parseMembers : Nat → List Char → Option (List (String × Json) × List Char)
  | 0, _ => none
  | fuel + 1, cs =>
    match skipWs cs with
    | '"' :: rest => do
      let (kcs, rem1) ← parseStringBody rest
      match skipWs rem1 with
      | ':' :: rem2 => do
        let (v, rem3) ← parseValue fuel rem2
        match skipWs rem3 with
        | ',' :: rem4 => do
          let (ms, rem5) ← parseMembers fuel rem4
          pure ((⟨kcs⟩, v) :: ms, rem5)
        | '}' :: rem4 => pure ([(⟨kcs⟩, v)], rem4)
        | _ => none
      | _ => none
    | _ => none

/-- Nonempty element list of a JSON array, up to and including the closing
bracket. -/
def parseElements : Nat → List Char → Option (List Json × List Char)
  | 0, _ => none
  | fuel + 1, cs => do
    let (v, rem1) ← parseValue fuel cs
    match skipWs rem1 with
    | ',' :: rem2 => do
      let (xs, rem3) ← parseElements fuel rem2
      pure (v :: xs, rem3)
    | ']' :: rem2 => pure ([v], rem2)
    | _ => none
end

/-- Modelled from the spec: `json.loads` on the full response body — parse
one value and require that only whitespace remains (Python raises
"Extra data" otherwise). `none` stands for the `json.JSONDecodeError` (or
any other exception) that the `try` in `analyze_resume` catches. -/
def json_loads (s : String) : Option Json :=
  match parseValue (s.length + 1) s.data with
  | some (j, rem) => if (skipWs rem).isEmpty then some j else none
  | none => none

/-- Embedding of the response-parsing step of `analyze_resume`
(src/app.py lines 86-90), as a function of the service response body
`content` (the outbound network call itself is an external effect, out of
scope per the spec). A successful `json.loads` is returned as-is; any
parse failure yields the error record
`{"error": "Invalid JSON from model", "raw": content}` instead of raising. -/
def analyze_resume (content : String) : Json :=
  match json_loads content with
  | some j => j
  | none =>
    Json.obj [("error", Json.str "Invalid JSON from model"),
              ("raw", Json.str content)]

/-- Embedding of the caller's classification at src/app.py lines 140-143:
`if "error" in result`, i.e. Python dict key membership on the returned
record. A result with a top-level "error" key is rendered as a parse
failure (raw text shown); only non-object results would behave differently
and the declared return type is `dict`. -/
def has_error_key : Json → Bool
  | Json.obj members => members.any (fun m => m.fst == "error")
  | _ => false

/-- Folding page texts with append equals joining the mapped page texts. -/
theorem foldl_append_join (pages : List (Option String)) :
    pages.foldl (fun text p => text ++ p.getD "") "" =
      String.join (pages.map (fun p => p.getD "")) := by
  simp [String.join, List.foldl_map]

/-- Claim C1, refuted by the code: extraction does not return a string for
every byte payload. The try/except blocks at src/app.py lines 25-28 and
38-41 guard only the imports; the `PdfReader(uploaded_file)` call at line
30 raises `PdfReadError` uncaught on a malformed payload declared as PDF,
and the `docx.Document(uploaded_file)` call at line 43 raises
`PackageNotFoundError` uncaught on a payload that is not a well-formed
word-processing container. Evaluated here at the payload b"not a pdf"
declared as each of the two binary types, with both capabilities
available: the exception escapes `extract_text_from_file`, contradicting
the never-raises contract the spec states as a requirement. -/
theorem extract_raises_on_malformed :
    extract_text_from_file ⟨true, true⟩
      (some ⟨"application/pdf", [110, 111, 116, 32, 97, 32, 112, 100, 102], none, none⟩) =
        Except.error "PdfReadError" ∧
    extract_text_from_file ⟨true, true⟩
      (some ⟨docxMime, [110, 111, 116, 32, 97, 32, 112, 100, 102], none, none⟩) =
        Except.error "PackageNotFoundError" :=
  ⟨rfl, rfl⟩

/-- Claim C2: whenever the service response body parses as a JSON object,
`analyze_resume` returns that parsed structure as-is, with no re-validation
of field presence, field types or the verdict enum. -/
theorem analyze_resume_returns_parse (s : String) (ms : List (String × Json))
    (h : json_loads s = some (Json.obj ms)) :
    analyze_resume s = Json.obj ms := by
  unfold analyze_resume
  rw [h]

/-- The concrete seven-field response body from the spec. -/
def sampleBody : String :=
  "\x7b\"match_score\": 82, \"verdict\": \"Strong match\", \"summary\": \"...\", \"strengths\": [\"a\"], \"gaps\": [\"b\"], \"improvement_suggestions\": [\"c\"], \"recommended_role_level\": \"Mid-level\"\x7d"

/-- The parse of `sampleBody`: match_score 82, verdict "Strong match"
(the StrongMatch literal), strengths ["a"]. -/
def sampleMembers : List (String × Json) :=
  [("match_score", Json.num 82),
   ("verdict", Json.str "Strong match"),
   ("summary", Json.str "..."),
   ("strengths", Json.arr [Json.str "a"]),
   ("gaps", Json.arr [Json.str "b"]),
   ("improvement_suggestions", Json.arr [Json.str "c"]),
   ("recommended_role_level", Json.str "Mid-level")]

/-- Witness for C2 at the spec's concrete response body. -/
theorem analyze_resume_returns_parse_check :
    json_loads sampleBody = some (Json.obj sampleMembers) ∧
    analyze_resume sampleBody = Json.obj sampleMembers :=
  ⟨rfl, analyze_resume_returns_parse sampleBody sampleMembers rfl⟩

/-- Claim C3: whenever the service response body is not valid JSON,
`analyze_resume` returns the error record carrying the response body
verbatim under "raw", instead of raising. -/
theorem analyze_resume_invalid_json (s : String) (h : json_loads s = none) :
    analyze_resume s =
      Json.obj [("error", Json.str "Invalid JSON from model"),
                ("raw", Json.str s)] := by
  unfold analyze_resume
  rw [h]

/-- Witness for C3 at the spec's concrete non-JSON response body. -/
theorem analyze_resume_invalid_json_check :
    json_loads "Sorry, I cannot help with that." = none ∧
    analyze_resume "Sorry, I cannot help with that." =
      Json.obj [("error", Json.str "Invalid JSON from model"),
                ("raw", Json.str "Sorry, I cannot help with that.")] :=
  ⟨rfl, analyze_resume_invalid_json "Sorry, I cannot help with that." rfl⟩

/-- Claim C4: extraction is a pure function of its input — two calls on
equal documents (same bytes, declared type and parse content) in the same
capability environment return the identical outcome (same text and
diagnostics, or the same escaping exception). -/
theorem extract_pure (env : Env) (d1 d2 : Option UploadedFile) (h : d1 = d2) :
    extract_text_from_file env d1 = extract_text_from_file env d2 := by
  rw [h]

/-- Witness for C4: two calls on the same concrete plain-text document
agree, and both evaluate to ("Hi", no diagnostics). -/
theorem extract_pure_check :
    extract_text_from_file ⟨true, true⟩ (some ⟨"text/plain", [72, 105], none, none⟩) =
      extract_text_from_file ⟨true, true⟩ (some ⟨"text/plain", [72, 105], none, none⟩) ∧
    extract_text_from_file ⟨true, true⟩ (some ⟨"text/plain", [72, 105], none, none⟩) =
      Except.ok ("Hi", []) :=
  ⟨extract_pure ⟨true, true⟩ _ _ rfl, rfl⟩

/-- Claim C5: on a syntactically valid PDF document (one `PdfReader`
parses successfully into a page list) with the parsing capability
available, extraction returns the per-page texts concatenated in page
order with no separator, a page with no extractable text (`none`)
contributing the empty string; no diagnostic is emitted and no exception
escapes. -/
theorem extract_pdf_concat (env : Env) (f : UploadedFile)
    (pages : List (Option String))
    (hav : env.pypdf2Available = true) (hty : f.type = "application/pdf")
    (hpg : f.pdfPages = some pages) :
    extract_text_from_file env (some f) =
      Except.ok (String.join (pages.map (fun p => p.getD "")), []) := by
  simp [extract_text_from_file, hty, hav, hpg, foldl_append_join]

/-- Witness for C5: three pages, the middle one with no extractable text,
concatenate with no separator. -/
theorem extract_pdf_concat_check :
    (Env.mk true true).pypdf2Available = true ∧
    (UploadedFile.mk "application/pdf" []
      (some [some "Page one.", none, some "Page two."]) none).type
      = "application/pdf" ∧
    extract_text_from_file ⟨true, true⟩
      (some ⟨"application/pdf", [], some [some "Page one.", none, some "Page two."], none⟩) =
      Except.ok ("Page one.Page two.", []) :=
  ⟨rfl, rfl,
    (extract_pdf_concat ⟨true, true⟩
      ⟨"application/pdf", [], some [some "Page one.", none, some "Page two."], none⟩
      [some "Page one.", none, some "Page two."]
      rfl rfl rfl).trans (by rfl)⟩

/-- Claim C6: on a well-formed word-processing document (one
`docx.Document` parses successfully into a paragraph list) with the
parsing capability available, extraction returns the paragraph texts in
document order joined with a newline separator; no diagnostic is emitted
and no exception escapes. -/
theorem extract_docx_join (env : Env) (f : UploadedFile)
    (paras : List String)
    (hav : env.docxAvailable = true) (hty : f.type = docxMime)
    (hps : f.docxParas = some paras) :
    extract_text_from_file env (some f) =
      Except.ok (String.intercalate "\n" paras, []) := by
  simp [extract_text_from_file, hty, hav, hps, docxMime]

/-- Witness for C6 at the spec's concrete paragraph list. -/
theorem extract_docx_join_check :
    (Env.mk true true).docxAvailable = true ∧
    (UploadedFile.mk docxMime [] none
      (some ["Alice Smith", "5 years experience", "Python, Go"])).type = docxMime ∧
    extract_text_from_file ⟨true, true⟩
      (some ⟨docxMime, [], none,
        some ["Alice Smith", "5 years experience", "Python, Go"]⟩) =
      Except.ok ("Alice Smith\n5 years experience\nPython, Go", []) :=
  ⟨rfl, rfl,
    (extract_docx_join ⟨true, true⟩
      ⟨docxMime, [], none, some ["Alice Smith", "5 years experience", "Python, Go"]⟩
      ["Alice Smith", "5 years experience", "Python, Go"]
      rfl rfl rfl).trans (by rfl)⟩

/-- Claim C7: on a plain-text document, extraction returns the lossy UTF-8
decoding of the payload (a total function: invalid byte sequences are
dropped, never fatal) and emits no diagnostic. -/
theorem extract_plain_lossy (env : Env) (f : UploadedFile)
    (hty : f.type = "text/plain") :
    extract_text_from_file env (some f) =
      Except.ok (utf8DecodeIgnore f.bytes, []) := by
  simp [extract_text_from_file, hty]

/-- Witness for C7: payload [72, 255, 105] contains the invalid byte 255,
which is dropped, giving "Hi" with no diagnostic. -/
theorem extract_plain_lossy_check :
    (UploadedFile.mk "text/plain" [72, 255, 105] none none).type = "text/plain" ∧
    extract_text_from_file ⟨true, true⟩
      (some ⟨"text/plain", [72, 255, 105], none, none⟩) = Except.ok ("Hi", []) :=
  ⟨rfl,
    (extract_plain_lossy ⟨true, true⟩ ⟨"text/plain", [72, 255, 105], none, none⟩
      rfl).trans (by rfl)⟩

/-- Claim C8: on a document whose declared media type is outside
  \x7bplain-text, pdf, word-processing-document\x7d, extraction returns the
empty string and the "Unsupported file type" warning exactly once. -/
theorem extract_unsupported (env : Env) (f : UploadedFile)
    (h1 : f.type ≠ "text/plain") (h2 : f.type ≠ "application/pdf")
    (h3 : f.type ≠ docxMime) :
    extract_text_from_file env (some f) =
      Except.ok ("", [Diagnostic.warning "Unsupported file type"]) := by
  simp [extract_text_from_file, h1, h2, h3]

/-- Witness for C8 at the declared media type "image/png". -/
theorem extract_unsupported_check :
    "image/png" ≠ "text/plain" ∧ "image/png" ≠ "application/pdf" ∧
    "image/png" ≠ docxMime ∧
    extract_text_from_file ⟨true, true⟩ (some ⟨"image/png", [], none, none⟩) =
      Except.ok ("", [Diagnostic.warning "Unsupported file type"]) :=
  ⟨by decide, by decide, by decide,
    extract_unsupported ⟨true, true⟩ ⟨"image/png", [], none, none⟩
      (by decide) (by decide) (by decide)⟩

/-- Claim C9: with no document supplied at all, extraction returns the
empty string immediately and emits no diagnostic, in every capability
environment — distinct from the "uploaded but unsupported" case. -/
theorem extract_absent (env : Env) :
    extract_text_from_file env none = Except.ok ("", []) := rfl

/-- Claim C10: success and parse failure are discriminated solely by a
top-level "error" key, so they are not disjoint: there is a service
response body that is a valid JSON object with a top-level "error" field
which `analyze_resume` returns as a successful parse, yet the caller's
`if "error" in result` check classifies and renders it as a parse
failure. -/
theorem error_key_not_disjoint :
    ∃ (s : String) (ms : List (String × Json)),
      json_loads s = some (Json.obj ms) ∧
      analyze_resume s = Json.obj ms ∧
      has_error_key (Json.obj ms) = true := by
  refine ⟨"\x7b\"error\": \"quota exceeded\", \"match_score\": 50\x7d",
    [("error", Json.str "quota exceeded"), ("match_score", Json.num 50)],
    rfl, rfl, rfl⟩

end ResumeMatch
